import Mathlib

/-!
Shallow embedding of the spacetraders test client's cache-bootstrap core
(`src/main.rs`): the bulk loaders `create_systems_table` and
`create_waypoints_table`, the orchestrator `ensure_systems_data`, the local
lookup `system_symbol_from_waypoint_symbol` / `get_waypoint` path, and (from
the spec, since the `rate_limit` module's source is not provided) the token
bucket of the rate governor.

Database state is modelled as two optional tables (`none` = table absent,
matching the `pg_tables` existence check).  Statement execution against the
connection pool autocommits immediately; the insert chunks of one bulk-load
call run against a single transaction that is applied to the table only at
`commit`, and is discarded when a chunk fails (the Rust code `.expect`s, the
dropped transaction rolls back).  Process-terminating `expect` panics are
modelled by `Outcome.panic` carrying the expect message.  Every executed
statement is recorded in an event trace (`Ev`), including the number of bound
parameters of each multi-row insert.
-/

/-- Result of running a piece of the client: either a normal return or an
`expect`-induced panic (which terminates the process), carrying the expect
message. -/
inductive Outcome (α : Type) where
  | ok (a : α)
  | panic (msg : String)
deriving DecidableEq, Repr

/-- Observable effects: the catalog fetch (network), DDL statements, one
multi-row insert per chunk (recording its bound-parameter count), and the
transaction commit. -/
inductive Ev where
  | fetch
  | dropTable (name : String)
  | createTable (name : String)
  | insertChunk (table : String) (params : Nat)
  | commit (table : String)
deriving DecidableEq, Repr

/-- A nested waypoint of the fetched catalog (`spacedust::models::Waypoint`,
restricted to the fields the loader reads). -/
structure Waypoint where
  symbol : String
  type : String
  x : Int
  y : Int
deriving DecidableEq, Repr

/-- A fetched catalog entity (`spacedust::models::System`, restricted to the
fields the loader reads; a faction is read only through its `symbol`). -/
structure System where
  symbol : String
  sector_symbol : String
  type : String
  x : Int
  y : Int
  factions : List String
  waypoints : List Waypoint
deriving DecidableEq, Repr

/-- A row of the `systems` table, one bind per column. -/
structure SystemRow where
  symbol : String
  sector_symbol : String
  type : String
  x : Int
  y : Int
  factions : List String
deriving DecidableEq, Repr

/-- A row of the `waypoints` table.  The schema declares seven columns; the
insert binds only five, so the two booleans are `Option Bool` and a row the
loader produces leaves them `none` (SQL NULL). -/
structure WaypointRow where
  symbol : String
  type : String
  system_symbol : String
  x : Int
  y : Int
  is_marketplace : Option Bool
  is_shipyard : Option Bool
deriving DecidableEq, Repr

/-- The relational store: each table is `none` when absent (the state the
`pg_tables` existence query reports) and `some rows` when present. -/
structure DB where
  systems : Option (List SystemRow)
  waypoints : Option (List WaypointRow)
deriving DecidableEq, Repr

/-- `const BIND_LIMIT: usize = 65535`. -/
def BIND_LIMIT : Nat := 65535

/-- Column list of `CREATE TABLE waypoints (...)` in source order. -/
def waypointsTableColumns : List String :=
  ["symbol", "type", "system_symbol", "x", "y", "is_marketplace", "is_shipyard"]

/-- Column list of `INSERT INTO waypoints(...)` in source order. -/
def waypointsInsertColumns : List String :=
  ["symbol", "type", "system_symbol", "x", "y"]

/-- Fuelled version of Rust's `slice::chunks(n)`: split into consecutive
pieces of length `n`, the last possibly shorter.  The fuel is consumed once
per emitted chunk; `l.length` fuel suffices whenever `1 ≤ n`. -/
def chunksAux (n : Nat) : Nat → List α → List (List α)
  | _, [] => []
  | 0, _ :: _ => []
  | fuel + 1, x :: xs => ((x :: xs).take n) :: chunksAux n fuel ((x :: xs).drop n)

/-- Rust's `slice::chunks(n)` (total for `1 ≤ n`, which is the only use). -/
def sliceChunks (n : Nat) (l : List α) : List (List α) :=
  chunksAux n l.length l

/-- The row written for one system by the systems insert
(`push_bind` sequence of `create_systems_table`). -/
def systemToRow (s : System) : SystemRow :=
  { symbol := s.symbol, sector_symbol := s.sector_symbol, type := s.type,
    x := s.x, y := s.y, factions := s.factions }

/-- The row written for one waypoint of `sys` by the waypoints insert
(`push_bind` sequence of `create_waypoints_table`): five binds, the two
boolean columns left unbound, hence NULL. -/
def waypointToRow (sys : System) (w : Waypoint) : WaypointRow :=
  { symbol := w.symbol, type := w.type, system_symbol := sys.symbol,
    x := w.x, y := w.y, is_marketplace := none, is_shipyard := none }

/-- The per-statement row batches of the systems load:
`systems.chunks(BIND_LIMIT / 6)`, each row carrying 6 binds. -/
def systemsInsertChunks (systems : List System) : List (List SystemRow) :=
  (sliceChunks (BIND_LIMIT / 6) systems).map (fun c => c.map systemToRow)

/-- The per-statement row batches of the waypoints load: one statement per
system with a non-empty waypoint list, containing ALL of that system's
waypoints (the source applies no chunking here). -/
def waypointsInsertBatches (systems : List System) : List (List WaypointRow) :=
  (systems.filter (fun s => !s.waypoints.isEmpty)).map
    (fun s => s.waypoints.map (waypointToRow s))

/-- All rows the systems load commits. -/
def systemRows (systems : List System) : List SystemRow :=
  (systemsInsertChunks systems).flatten

/-- All rows the waypoints load commits. -/
def waypointRows (systems : List System) : List WaypointRow :=
  (waypointsInsertBatches systems).flatten

/-- Failure oracle meaning every insert statement succeeds. -/
def noFail : Nat → Bool := fun _ => false

/-- Failure oracle meaning the first insert statement fails. -/
def failAt0 : Nat → Bool := fun i => i == 0

/-- Execute the insert statements of one bulk-load call, in input order,
against the open transaction.  `ppr` is the number of binds per row; each
statement of batch `c` carries `ppr * c.length` bound parameters.  If the
statement at index `i` fails (`fail i`), the `.expect` panics immediately:
later statements are not executed and no rows are returned for commit. -/
def execChunks {ρ : Type} (table : String) (ppr : Nat) (fail : Nat → Bool) :
    Nat → List (List ρ) → Outcome (List ρ) × List Ev
  | _, [] => (Outcome.ok [], [])
  | i, c :: cs =>
    if fail i then
      (Outcome.panic ("Insert into " ++ table ++ " table"),
        [Ev.insertChunk table (ppr * c.length)])
    else
      match execChunks table ppr fail (i + 1) cs with
      | (Outcome.ok rest, evs) =>
          (Outcome.ok (c ++ rest), Ev.insertChunk table (ppr * c.length) :: evs)
      | (Outcome.panic m, evs) =>
          (Outcome.panic m, Ev.insertChunk table (ppr * c.length) :: evs)

/-- `create_systems_table`: DROP and CREATE autocommit on the pool (so the
empty table persists even if a later insert fails), then all insert chunks
run on one transaction, committed only after every chunk succeeded; a chunk
failure panics, the dropped transaction rolls back, and the table stays as
created (zero rows). -/
def create_systems_table (fail : Nat → Bool) (systems : List System) (db : DB) :
    Outcome Unit × DB × List Ev :=
  let db1 : DB := { db with systems := some [] }
  match execChunks "systems" 6 fail 0 (systemsInsertChunks systems) with
  | (Outcome.ok rows, evs) =>
      (Outcome.ok (), { db1 with systems := some rows },
        Ev.dropTable "systems" :: Ev.createTable "systems" ::
          (evs ++ [Ev.commit "systems"]))
  | (Outcome.panic m, evs) =>
      (Outcome.panic m, db1,
        Ev.dropTable "systems" :: Ev.createTable "systems" :: evs)

/-- `create_waypoints_table`: same shape as the systems load, except that the
per-statement batches are one whole system's waypoint list each (systems with
an empty waypoint list are skipped by `continue`), with 5 binds per row. -/
def create_waypoints_table (fail : Nat → Bool) (systems : List System) (db : DB) :
    Outcome Unit × DB × List Ev :=
  let db1 : DB := { db with waypoints := some [] }
  match execChunks "waypoints" 5 fail 0 (waypointsInsertBatches systems) with
  | (Outcome.ok rows, evs) =>
      (Outcome.ok (), { db1 with waypoints := some rows },
        Ev.dropTable "waypoints" :: Ev.createTable "waypoints" ::
          (evs ++ [Ev.commit "waypoints"]))
  | (Outcome.panic m, evs) =>
      (Outcome.panic m, db1,
        Ev.dropTable "waypoints" :: Ev.createTable "waypoints" :: evs)

/-- `ensure_systems_data`: test existence of both tables in `pg_tables`; if
either is missing, fetch the whole catalog once (`get_systems_all`, an
`Outcome` because the fetch may fail, in which case its `.expect` panics and
nothing is written), then load systems, then waypoints, both from the same
in-memory fetch result. -/
def ensure_systems_data (fetch : Outcome (List System))
    (failS failW : Nat → Bool) (db : DB) : Outcome Unit × DB × List Ev :=
  if !db.systems.isSome || !db.waypoints.isSome then
    match fetch with
    | Outcome.panic m => (Outcome.panic m, db, [Ev.fetch])
    | Outcome.ok systems =>
        match create_systems_table failS systems db with
        | (Outcome.panic m, db1, evs1) => (Outcome.panic m, db1, Ev.fetch :: evs1)
        | (Outcome.ok _, db1, evs1) =>
            match create_waypoints_table failW systems db1 with
            | (o2, db2, evs2) => (o2, db2, Ev.fetch :: (evs1 ++ evs2))
  else
    (Outcome.ok (), db, [])

/-- `system_symbol_from_waypoint_symbol`: `SELECT system_symbol FROM waypoints
WHERE symbol = $1` with `fetch_one`, `.expect`ed — a missing table or a
zero-row result panics; otherwise the first matching row's `system_symbol` is
returned. -/
def system_symbol_from_waypoint_symbol (db : DB) (ws : String) : Outcome String :=
  match db.waypoints with
  | none => Outcome.panic "System symbol fetching"
  | some rows =>
      match rows.find? (fun r => r.symbol == ws) with
      | some r => Outcome.ok r.system_symbol
      | none => Outcome.panic "System symbol fetching"

/-- `get_waypoint` (menu action): resolve the system symbol from the local
waypoints table first, then issue the network request
`systems_api::get_waypoint(system, waypoint)`.  The second component lists
the network requests issued, as (system symbol, waypoint symbol) pairs. -/
def get_waypoint (db : DB) (ws : String) : Outcome String × List (String × String) :=
  match system_symbol_from_waypoint_symbol db ws with
  | Outcome.panic m => (Outcome.panic m, [])
  | Outcome.ok sys => (Outcome.ok sys, [(sys, ws)])

/-- Does the local waypoints table hold a row for this waypoint symbol? -/
def hasWaypointRow (db : DB) (ws : String) : Bool :=
  match db.waypoints with
  | none => false
  | some rows => rows.any (fun r => r.symbol == ws)

/-- Modelled from the spec: the Rate Governor's token-bucket state lives in
the `rate_limit` module, whose source file is not among the provided sources;
this follows spec sections 3 and 4.1 — capacity `C`, current count `T`, refill
rate `R` tokens/second, with real-number token arithmetic rendered over `Rat`. -/
structure TokenBucket where
  capacity : Rat
  tokens : Rat
  rate : Rat
deriving DecidableEq, Repr

/-- Modelled from the spec: lazy refill at acquisition time,
`T := min(C, T + elapsed_seconds * R)`. -/
def refill (b : TokenBucket) (elapsed : Rat) : TokenBucket :=
  { b with tokens := min b.capacity (b.tokens + elapsed * b.rate) }

/-- Modelled from the spec: `acquire` refills, consumes one token if at least
one is available, and otherwise suspends for `(1 - T) / R` seconds before
retrying; with exact arithmetic one retry always reaches a token (for
`C ≥ 1`), so the retry loop is unrolled once, and a still-starved bucket is
left unconsumed. -/
def acquire (b : TokenBucket) (elapsed : Rat) : TokenBucket :=
  let b1 := refill b elapsed
  if 1 ≤ b1.tokens then { b1 with tokens := b1.tokens - 1 }
  else
    let b2 := refill b1 ((1 - b1.tokens) / b1.rate)
    if 1 ≤ b2.tokens then { b2 with tokens := b2.tokens - 1 }
    else b2

/-- A whole sequence of `acquire` calls, each with its own elapsed time since
the previous refill. -/
def acquireSeq (b : TokenBucket) (es : List Rat) : TokenBucket :=
  es.foldl acquire b

/-- Concrete data for witnesses and counterexamples. -/
def wpA : Waypoint := { symbol := "A1-W", type := "PLANET", x := 3, y := 4 }

def sys1 : System :=
  { symbol := "A1", sector_symbol := "A", type := "NEUTRON_STAR",
    x := 1, y := 2, factions := ["COSMIC"], waypoints := [wpA] }

def sysNoWp : System :=
  { symbol := "B2", sector_symbol := "B", type := "RED_STAR",
    x := 5, y := 6, factions := [], waypoints := [] }

/-- A single system holding 13108 waypoints: its one waypoints insert
statement carries 5 * 13108 = 65540 bound parameters. -/
def bigSystem : System :=
  { symbol := "A1", sector_symbol := "A", type := "NEUTRON_STAR",
    x := 1, y := 2, factions := [], waypoints := List.replicate 13108 wpA }

def dbEmpty : DB := { systems := none, waypoints := none }

/-- A store where the systems table already exists but waypoints is missing. -/
def dbSysOnly : DB :=
  { systems := some [systemToRow sysNoWp], waypoints := none }

/-- A store holding exactly the rows loaded from `[sys1]`. -/
def dbOneWp : DB :=
  { systems := some [systemToRow sys1], waypoints := some [waypointToRow sys1 wpA] }

/-- The event trace of a fully successful systems load. -/
def systemsLoadEvents (ss : List System) : List Ev :=
  Ev.dropTable "systems" :: Ev.createTable "systems" ::
    ((systemsInsertChunks ss).map
        (fun c => Ev.insertChunk "systems" (6 * c.length)) ++
      [Ev.commit "systems"])

/-- The event trace of a fully successful waypoints load. -/
def waypointsLoadEvents (ss : List System) : List Ev :=
  Ev.dropTable "waypoints" :: Ev.createTable "waypoints" ::
    ((waypointsInsertBatches ss).map
        (fun c => Ev.insertChunk "waypoints" (5 * c.length)) ++
      [Ev.commit "waypoints"])

example : sliceChunks 2 [1, 2, 3, 4, 5] = [[1, 2], [3, 4], [5]] := by decide

example : (create_systems_table noFail [sys1, sysNoWp] dbEmpty).2.1.systems =
    some [systemToRow sys1, systemToRow sysNoWp] := by decide

example : (create_waypoints_table noFail [sys1, sysNoWp] dbEmpty).2.1.waypoints =
    some [waypointToRow sys1 wpA] := by decide

/-! Helper lemmas. -/

theorem chunksAux_flatten {α : Type} (n : Nat) (hn : 1 ≤ n) :
    ∀ (fuel : Nat) (l : List α), l.length ≤ fuel → (chunksAux n fuel l).flatten = l := by
  intro fuel
  induction fuel with
  | zero =>
      intro l hl
      cases l with
      | nil => rfl
      | cons x xs => simp at hl
  | succ fuel ih =>
      intro l hl
      cases l with
      | nil => rfl
      | cons x xs =>
          have hdrop : ((x :: xs).drop n).length ≤ fuel := by
            simp only [List.length_drop]
            omega
          simp only [chunksAux, List.flatten_cons, ih _ hdrop, List.take_append_drop]

theorem sliceChunks_flatten {α : Type} (n : Nat) (hn : 1 ≤ n) (l : List α) :
    (sliceChunks n l).flatten = l :=
  chunksAux_flatten n hn l.length l (Nat.le_refl _)

theorem systemRows_eq (systems : List System) :
    systemRows systems = systems.map systemToRow := by
  unfold systemRows systemsInsertChunks
  rw [← List.map_flatten, sliceChunks_flatten _ (by norm_num [BIND_LIMIT])]

theorem execChunks_noFail {ρ : Type} (table : String) (ppr : Nat) :
    ∀ (i : Nat) (cs : List (List ρ)),
      execChunks table ppr noFail i cs =
        (Outcome.ok cs.flatten,
          cs.map (fun c => Ev.insertChunk table (ppr * c.length))) := by
  intro i cs
  induction cs generalizing i with
  | nil => rfl
  | cons c cs ih => simp [execChunks, noFail, ih]

theorem execChunks_ok_flatten {ρ : Type} (table : String) (ppr : Nat)
    (f : Nat → Bool) :
    ∀ (i : Nat) (cs : List (List ρ)) (rows : List ρ) (evs : List Ev),
      execChunks table ppr f i cs = (Outcome.ok rows, evs) → rows = cs.flatten := by
  intro i cs
  induction cs generalizing i with
  | nil =>
      intro rows evs h
      simp [execChunks] at h
      simp [h.1.symm]
  | cons c cs ih =>
      intro rows evs h
      by_cases hf : f i
      · simp [execChunks, hf] at h
      · simp only [execChunks, hf, if_false, Bool.false_eq_true] at h
        rcases he : execChunks table ppr f (i + 1) cs with ⟨o, evs2⟩
        cases o with
        | ok rest =>
            rw [he] at h
            simp at h
            rw [← h.1, List.flatten_cons, ih (i + 1) rest evs2 he]
        | panic m =>
            rw [he] at h
            simp at h

theorem execChunks_panics {ρ : Type} (table : String) (ppr : Nat)
    (f : Nat → Bool) :
    ∀ (cs : List (List ρ)) (i : Nat),
      (∃ j, j < cs.length ∧ f (i + j) = true) →
      ∃ evs, execChunks table ppr f i cs =
        (Outcome.panic ("Insert into " ++ table ++ " table"), evs) := by
  intro cs
  induction cs with
  | nil =>
      intro i h
      rcases h with ⟨j, hj, _⟩
      simp at hj
  | cons c cs ih =>
      intro i h
      by_cases hf : f i
      · refine ⟨[Ev.insertChunk table (ppr * c.length)], ?_⟩
        simp [execChunks, hf]
      · rcases h with ⟨j, hj, hfj⟩
        cases j with
        | zero =>
            rw [Nat.add_zero] at hfj
            exact absurd hfj hf
        | succ k =>
            have hk : ∃ j, j < cs.length ∧ f ((i + 1) + j) = true := by
              refine ⟨k, ?_, ?_⟩
              · simpa using hj
              · have hik : i + 1 + k = i + (k + 1) := by omega
                rw [hik]
                exact hfj
            rcases ih (i + 1) hk with ⟨evs, hevs⟩
            refine ⟨Ev.insertChunk table (ppr * c.length) :: evs, ?_⟩
            simp [execChunks, hf, hevs]

theorem create_systems_table_noFail (ss : List System) (db : DB) :
    create_systems_table noFail ss db =
      (Outcome.ok (), { db with systems := some (systemRows ss) },
        systemsLoadEvents ss) := by
  unfold create_systems_table systemsLoadEvents
  rw [execChunks_noFail]
  rfl

theorem create_waypoints_table_noFail (ss : List System) (db : DB) :
    create_waypoints_table noFail ss db =
      (Outcome.ok (), { db with waypoints := some (waypointRows ss) },
        waypointsLoadEvents ss) := by
  unfold create_waypoints_table waypointsLoadEvents
  rw [execChunks_noFail]
  rfl

theorem ensure_present (fetch : Outcome (List System)) (fS fW : Nat → Bool)
    (db : DB) (hs : db.systems.isSome) (hw : db.waypoints.isSome) :
    ensure_systems_data fetch fS fW db = (Outcome.ok (), db, []) := by
  unfold ensure_systems_data
  simp [hs, hw]

theorem ensure_noFail_missing (ss : List System) (db : DB)
    (h : db.systems = none ∨ db.waypoints = none) :
    ensure_systems_data (Outcome.ok ss) noFail noFail db =
      (Outcome.ok (),
        { systems := some (systemRows ss), waypoints := some (waypointRows ss) },
        Ev.fetch :: (systemsLoadEvents ss ++ waypointsLoadEvents ss)) := by
  have hcond : (!db.systems.isSome || !db.waypoints.isSome) = true := by
    rcases h with h | h <;> simp [h]
  unfold ensure_systems_data
  rw [hcond]
  simp only [if_true, create_systems_table_noFail, create_waypoints_table_noFail]

theorem waypointRows_length (ss : List System) :
    (waypointRows ss).length = (ss.map (fun s => s.waypoints.length)).sum := by
  unfold waypointRows waypointsInsertBatches
  induction ss with
  | nil => rfl
  | cons s ss ih =>
      by_cases he : s.waypoints.isEmpty
      · have hnil : s.waypoints = [] := List.isEmpty_iff.mp he
        simp [List.filter_cons, he, hnil, ih]
      · have hne : (!s.waypoints.isEmpty) = true := by simp [he]
        simp [List.filter_cons, hne, ih]

theorem waypointRows_flags (ss : List System) (r : WaypointRow)
    (hr : r ∈ waypointRows ss) :
    r.is_marketplace = none ∧ r.is_shipyard = none := by
  unfold waypointRows waypointsInsertBatches at hr
  rw [List.mem_flatten] at hr
  rcases hr with ⟨batch, hbatch, hrb⟩
  rw [List.mem_map] at hbatch
  rcases hbatch with ⟨s, _, hseq⟩
  rw [← hseq, List.mem_map] at hrb
  rcases hrb with ⟨w, _, hweq⟩
  rw [← hweq]
  exact ⟨rfl, rfl⟩

theorem acquire_capacity (b : TokenBucket) (e : Rat) :
    (acquire b e).capacity = b.capacity := by
  unfold acquire refill
  dsimp only
  by_cases h1 : (1 : Rat) ≤ min b.capacity (b.tokens + e * b.rate)
  · rw [if_pos h1]
  · rw [if_neg h1]
    by_cases h2 : (1 : Rat) ≤ min b.capacity
        (min b.capacity (b.tokens + e * b.rate) +
          (1 - min b.capacity (b.tokens + e * b.rate)) / b.rate * b.rate)
    · rw [if_pos h2]
    · rw [if_neg h2]

theorem acquire_rate (b : TokenBucket) (e : Rat) :
    (acquire b e).rate = b.rate := by
  unfold acquire refill
  dsimp only
  by_cases h1 : (1 : Rat) ≤ min b.capacity (b.tokens + e * b.rate)
  · rw [if_pos h1]
  · rw [if_neg h1]
    by_cases h2 : (1 : Rat) ≤ min b.capacity
        (min b.capacity (b.tokens + e * b.rate) +
          (1 - min b.capacity (b.tokens + e * b.rate)) / b.rate * b.rate)
    · rw [if_pos h2]
    · rw [if_neg h2]

theorem acquire_tokens_bounds (b : TokenBucket) (e : Rat)
    (ht0 : 0 ≤ b.tokens) (htc : b.tokens ≤ b.capacity)
    (hr : 0 ≤ b.rate) (he : 0 ≤ e) :
    0 ≤ (acquire b e).tokens ∧ (acquire b e).tokens ≤ b.capacity := by
  have hc : 0 ≤ b.capacity := le_trans ht0 htc
  unfold acquire refill
  dsimp only
  have h1le : min b.capacity (b.tokens + e * b.rate) ≤ b.capacity := min_le_left _ _
  have h1ge : 0 ≤ min b.capacity (b.tokens + e * b.rate) :=
    le_min hc (add_nonneg ht0 (mul_nonneg he hr))
  by_cases h1 : (1 : Rat) ≤ min b.capacity (b.tokens + e * b.rate)
  · rw [if_pos h1]
    dsimp only
    constructor
    · linarith
    · linarith
  · rw [if_neg h1]
    have h2le : min b.capacity
        (min b.capacity (b.tokens + e * b.rate) +
          (1 - min b.capacity (b.tokens + e * b.rate)) / b.rate * b.rate) ≤
        b.capacity := min_le_left _ _
    have h2ge : 0 ≤ min b.capacity
        (min b.capacity (b.tokens + e * b.rate) +
          (1 - min b.capacity (b.tokens + e * b.rate)) / b.rate * b.rate) := by
      refine le_min hc ?_
      rcases eq_or_lt_of_le hr with hr0 | hrpos
      · rw [← hr0]
        simp only [mul_zero, add_zero]
        exact le_min hc ht0
      · rw [div_mul_cancel₀ _ (ne_of_gt hrpos)]
        linarith
    by_cases h2 : (1 : Rat) ≤ min b.capacity
        (min b.capacity (b.tokens + e * b.rate) +
          (1 - min b.capacity (b.tokens + e * b.rate)) / b.rate * b.rate)
    · rw [if_pos h2]
      dsimp only
      constructor
      · linarith
      · linarith
    · rw [if_neg h2]
      exact ⟨h2ge, h2le⟩

theorem systemsLoadEvents_no_fetch (ss : List System) :
    Ev.fetch ∉ systemsLoadEvents ss := by
  intro h
  simp only [systemsLoadEvents, List.mem_cons, List.mem_append, List.mem_map] at h
  rcases h with h | h | ⟨c, _, h⟩ | h <;> simp_all

theorem waypointsLoadEvents_no_fetch (ss : List System) :
    Ev.fetch ∉ waypointsLoadEvents ss := by
  intro h
  simp only [waypointsLoadEvents, List.mem_cons, List.mem_append, List.mem_map] at h
  rcases h with h | h | ⟨c, _, h⟩ | h <;> simp_all

theorem bootstrap_trace_one_fetch (ss : List System) :
    (Ev.fetch :: (systemsLoadEvents ss ++ waypointsLoadEvents ss)).count Ev.fetch = 1 := by
  rw [List.count_cons_self, List.count_append,
    List.count_eq_zero.mpr (systemsLoadEvents_no_fetch ss),
    List.count_eq_zero.mpr (waypointsLoadEvents_no_fetch ss)]

/-! Claim theorems. -/

/-- C3: for each table, the insert chunks of one bulk-load call run in a
single transaction committed only after every chunk succeeded: the load is
all-or-nothing — either the call returns normally and the table holds exactly
the rows of this load, or some chunk failed, the call panics, and the table
holds zero rows of this load. -/
theorem bulk_load_transaction_atomic (failS failW : Nat → Bool)
    (ss : List System) (db : DB) :
    ((create_systems_table failS ss db).1 = Outcome.ok () ∧
        (create_systems_table failS ss db).2.1.systems = some (systemRows ss) ∨
      ∃ m, (create_systems_table failS ss db).1 = Outcome.panic m ∧
        (create_systems_table failS ss db).2.1.systems = some []) ∧
    ((create_waypoints_table failW ss db).1 = Outcome.ok () ∧
        (create_waypoints_table failW ss db).2.1.waypoints = some (waypointRows ss) ∨
      ∃ m, (create_waypoints_table failW ss db).1 = Outcome.panic m ∧
        (create_waypoints_table failW ss db).2.1.waypoints = some []) := by
  constructor
  · rcases he : execChunks "systems" 6 failS 0 (systemsInsertChunks ss) with ⟨o, evs⟩
    cases o with
    | ok rows =>
        left
        have hrows := execChunks_ok_flatten "systems" 6 failS 0 _ rows evs he
        unfold create_systems_table
        rw [he, hrows]
        exact ⟨rfl, rfl⟩
    | panic m =>
        right
        refine ⟨m, ?_, ?_⟩ <;> (unfold create_systems_table; rw [he])
  · rcases he : execChunks "waypoints" 5 failW 0 (waypointsInsertBatches ss) with ⟨o, evs⟩
    cases o with
    | ok rows =>
        left
        have hrows := execChunks_ok_flatten "waypoints" 5 failW 0 _ rows evs he
        unfold create_waypoints_table
        rw [he, hrows]
        exact ⟨rfl, rfl⟩
    | panic m =>
        right
        refine ⟨m, ?_, ?_⟩ <;> (unfold create_waypoints_table; rw [he])

/-- C4: after a successful load the systems table holds exactly one row per
input system and the waypoints table exactly one row per waypoint summed over
all systems; a system with an empty waypoint set contributes zero waypoint
rows and is skipped without raising an error (both loads return normally). -/
theorem bulk_load_row_counts (ss : List System) (db : DB) :
    (∃ srows, (create_systems_table noFail ss db).2.1.systems = some srows ∧
      srows.length = ss.length) ∧
    (∃ wrows, (create_waypoints_table noFail ss db).2.1.waypoints = some wrows ∧
      wrows.length = (ss.map (fun s => s.waypoints.length)).sum) ∧
    (create_systems_table noFail ss db).1 = Outcome.ok () ∧
    (create_waypoints_table noFail ss db).1 = Outcome.ok () := by
  refine ⟨⟨systemRows ss, ?_, ?_⟩, ⟨waypointRows ss, ?_, ?_⟩, ?_, ?_⟩
  · rw [create_systems_table_noFail]
  · rw [systemRows_eq, List.length_map]
  · rw [create_waypoints_table_noFail]
  · exact waypointRows_length ss
  · rw [create_systems_table_noFail]
  · rw [create_waypoints_table_noFail]

/-- C5: when either table is missing, `ensure_systems_data` performs exactly
one catalog fetch followed by the systems load and then the waypoints load,
in that order, and rebuilds BOTH tables from that same fetch result —
regardless of what either table previously contained. -/
theorem ensure_rebuilds_both_tables (ss : List System) (db : DB)
    (h : db.systems = none ∨ db.waypoints = none) :
    ensure_systems_data (Outcome.ok ss) noFail noFail db =
      (Outcome.ok (),
        { systems := some (systemRows ss), waypoints := some (waypointRows ss) },
        Ev.fetch :: (systemsLoadEvents ss ++ waypointsLoadEvents ss)) ∧
    (Ev.fetch :: (systemsLoadEvents ss ++ waypointsLoadEvents ss)).count Ev.fetch = 1 :=
  ⟨ensure_noFail_missing ss db h, bootstrap_trace_one_fetch ss⟩

/-- C5 witness: a store whose systems table exists (with unrelated content)
but whose waypoints table is missing is rebuilt on both sides from the fetch. -/
theorem ensure_rebuilds_both_tables_witness :
    (dbSysOnly.systems = none ∨ dbSysOnly.waypoints = none) ∧
    (ensure_systems_data (Outcome.ok [sys1]) noFail noFail dbSysOnly =
      (Outcome.ok (),
        { systems := some (systemRows [sys1]), waypoints := some (waypointRows [sys1]) },
        Ev.fetch :: (systemsLoadEvents [sys1] ++ waypointsLoadEvents [sys1])) ∧
    (Ev.fetch :: (systemsLoadEvents [sys1] ++ waypointsLoadEvents [sys1])).count Ev.fetch = 1) :=
  ⟨Or.inr rfl, ensure_rebuilds_both_tables [sys1] dbSysOnly (Or.inr rfl)⟩

/-- C6: starting from a missing cache, the first `ensure_systems_data` call
performs one fetch-and-load cycle; the second call then finds both tables
present and performs no network request and no write (empty event trace,
store unchanged). -/
theorem ensure_idempotent (ss : List System) (db : DB)
    (h : db.systems = none ∨ db.waypoints = none) :
    (ensure_systems_data (Outcome.ok ss) noFail noFail db).2.2.count Ev.fetch = 1 ∧
    ensure_systems_data (Outcome.ok ss) noFail noFail
        (ensure_systems_data (Outcome.ok ss) noFail noFail db).2.1 =
      (Outcome.ok (), (ensure_systems_data (Outcome.ok ss) noFail noFail db).2.1, []) := by
  have h1 := ensure_noFail_missing ss db h
  constructor
  · rw [h1]
    exact bootstrap_trace_one_fetch ss
  · rw [h1]
    exact ensure_present _ _ _ _ rfl rfl

/-- C6 witness: concrete double invocation starting from an absent cache. -/
theorem ensure_idempotent_witness :
    (dbEmpty.systems = none ∨ dbEmpty.waypoints = none) ∧
    ((ensure_systems_data (Outcome.ok [sys1]) noFail noFail dbEmpty).2.2.count Ev.fetch = 1 ∧
    ensure_systems_data (Outcome.ok [sys1]) noFail noFail
        (ensure_systems_data (Outcome.ok [sys1]) noFail noFail dbEmpty).2.1 =
      (Outcome.ok (),
        (ensure_systems_data (Outcome.ok [sys1]) noFail noFail dbEmpty).2.1, [])) :=
  ⟨Or.inl rfl, ensure_idempotent [sys1] dbEmpty (Or.inl rfl)⟩

/-- C2 counterexample: both tables start absent, the fetch succeeds, and the
single waypoints insert chunk fails.  The systems table commits fully and the
waypoints CREATE TABLE autocommitted before the failed insert, so BOTH tables
exist afterwards (waypoints empty); the future run's existence check passes
and `ensure_systems_data` performs no fetch and no write and leaves the store
unchanged — it does not re-attempt the bootstrap, contrary to the claim. -/
theorem failed_bootstrap_then_noop :
    (∃ m, (ensure_systems_data (Outcome.ok [sys1]) noFail failAt0 dbEmpty).1 =
      Outcome.panic m) ∧
    (ensure_systems_data (Outcome.ok [sys1]) noFail failAt0 dbEmpty).2.1 =
      { systems := some [systemToRow sys1], waypoints := some [] } ∧
    ensure_systems_data (Outcome.ok [sys1]) noFail noFail
        { systems := some [systemToRow sys1], waypoints := some [] } =
      (Outcome.ok (),
        { systems := some [systemToRow sys1], waypoints := some [] }, []) :=
  ⟨⟨"Insert into waypoints table", rfl⟩, rfl, rfl⟩

/-- C2 (amended): a bootstrap failure during the catalog fetch leaves the
store unchanged with no writes, so the future run still sees a missing table
and re-attempts the whole fetch-and-load from scratch; a failure in an insert
chunk after the CREATE TABLE statements committed can instead leave both
tables existing, after which `ensure_systems_data` does nothing. -/
theorem fetch_failure_reattempts_bootstrap (mFail : String)
    (failS failW : Nat → Bool) (ss : List System) (db : DB)
    (h : db.systems = none ∨ db.waypoints = none) :
    ensure_systems_data (Outcome.panic mFail) failS failW db =
      (Outcome.panic mFail, db, [Ev.fetch]) ∧
    (ensure_systems_data (Outcome.ok ss) noFail noFail db).2.1 =
      { systems := some (systemRows ss), waypoints := some (waypointRows ss) } := by
  have hcond : (!db.systems.isSome || !db.waypoints.isSome) = true := by
    rcases h with h | h <;> simp [h]
  constructor
  · unfold ensure_systems_data
    rw [hcond]
    rfl
  · rw [ensure_noFail_missing ss db h]

/-- C2 witness: a fetch failure on an absent cache leaves it absent, and the
next run rebuilds both tables. -/
theorem fetch_failure_reattempts_bootstrap_witness :
    (dbEmpty.systems = none ∨ dbEmpty.waypoints = none) ∧
    (ensure_systems_data (Outcome.panic "Get all systems") noFail noFail dbEmpty =
      (Outcome.panic "Get all systems", dbEmpty, [Ev.fetch]) ∧
    (ensure_systems_data (Outcome.ok [sys1]) noFail noFail dbEmpty).2.1 =
      { systems := some (systemRows [sys1]), waypoints := some (waypointRows [sys1]) }) :=
  ⟨Or.inl rfl,
    fetch_failure_reattempts_bootstrap "Get all systems" noFail noFail [sys1] dbEmpty
      (Or.inl rfl)⟩

/-- C7 counterexample: a persistence error while bulk-loading (first systems
insert chunk fails) terminates the process via the `expect` panic instead of
being returned to the caller as a value — contradicting the claim that only a
missing credential or connection string terminates the process. -/
theorem persistence_error_terminates_process :
    (ensure_systems_data (Outcome.ok [sys1]) failAt0 noFail dbEmpty).1 =
      Outcome.panic "Insert into systems table" := rfl

/-- C7 (amended): core errors during bootstrap are not returned to any
caller; a failing insert chunk makes `ensure_systems_data` end in a
process-terminating panic. -/
theorem core_errors_panic (ss : List System) (db : DB)
    (failS failW : Nat → Bool)
    (h : db.systems = none ∨ db.waypoints = none)
    (h2 : ∃ j, j < (systemsInsertChunks ss).length ∧ failS j = true) :
    ∃ m, (ensure_systems_data (Outcome.ok ss) failS failW db).1 = Outcome.panic m := by
  have hcond : (!db.systems.isSome || !db.waypoints.isSome) = true := by
    rcases h with h | h <;> simp [h]
  have h2' : ∃ j, j < (systemsInsertChunks ss).length ∧ failS (0 + j) = true := by
    simpa using h2
  rcases execChunks_panics "systems" 6 failS (systemsInsertChunks ss) 0 h2' with ⟨evs, he⟩
  refine ⟨"Insert into " ++ "systems" ++ " table", ?_⟩
  have hcs : create_systems_table failS ss db =
      (Outcome.panic ("Insert into " ++ "systems" ++ " table"),
        { db with systems := some [] },
        Ev.dropTable "systems" :: Ev.createTable "systems" :: evs) := by
    unfold create_systems_table
    rw [he]
  unfold ensure_systems_data
  rw [hcond]
  dsimp only
  rw [hcs]
  rfl

/-- C7 witness: concrete run in which the first systems chunk fails. -/
theorem core_errors_panic_witness :
    ((dbEmpty.systems = none ∨ dbEmpty.waypoints = none) ∧
      (∃ j, j < (systemsInsertChunks [sys1]).length ∧ failAt0 j = true)) ∧
    (∃ m, (ensure_systems_data (Outcome.ok [sys1]) failAt0 noFail dbEmpty).1 =
      Outcome.panic m) :=
  ⟨⟨Or.inl rfl, ⟨0, by decide, rfl⟩⟩,
    core_errors_panic [sys1] dbEmpty failAt0 noFail (Or.inl rfl) ⟨0, by decide, rfl⟩⟩

theorem waypointsInsertBatches_bigSystem :
    waypointsInsertBatches [bigSystem] =
      [List.replicate 13108 (waypointToRow bigSystem wpA)] := by
  have hwp : bigSystem.waypoints = List.replicate 13108 wpA := rfl
  have hne : (!bigSystem.waypoints.isEmpty) = true := by
    rw [hwp, show (13108 : Nat) = 13107 + 1 from rfl, List.replicate_succ]
    rfl
  unfold waypointsInsertBatches
  simp only [List.filter_cons, hne, if_true, List.filter_nil,
    List.map_cons, List.map_nil]
  rw [hwp, List.map_replicate]

/-- C1 (code-bug evaluation): the waypoints load applies no chunking, so a
single input system carrying 13108 waypoints makes the Bulk Loader issue one
multi-row INSERT statement with 5 * 13108 = 65540 bound parameters, which
exceeds MAX_BOUND_PARAMETERS = 65535 — contradicting the claim that every
statement respects the limit regardless of how many waypoints a system has. -/
theorem waypoints_statement_exceeds_bind_limit :
    Ev.insertChunk "waypoints" 65540 ∈
      (create_waypoints_table noFail [bigSystem] dbEmpty).2.2 ∧
    BIND_LIMIT < 65540 := by
  constructor
  · rw [create_waypoints_table_noFail]
    dsimp only
    unfold waypointsLoadEvents
    rw [waypointsInsertBatches_bigSystem]
    simp only [List.map_cons, List.map_nil, List.length_replicate]
    decide
  · decide

/-- C8: every row a successful waypoints load inserts leaves is_marketplace
and is_shipyard unpopulated (NULL), while the insert binds exactly the first
five of the seven columns the created table declares. -/
theorem waypoint_boolean_flags_null (ss : List System) (db : DB) :
    (∃ wrows, (create_waypoints_table noFail ss db).2.1.waypoints = some wrows ∧
      wrows.all (fun r => r.is_marketplace.isNone && r.is_shipyard.isNone) = true) ∧
    waypointsTableColumns.length = 7 ∧
    waypointsInsertColumns = waypointsTableColumns.take 5 := by
  refine ⟨⟨waypointRows ss, ?_, ?_⟩, by decide, by decide⟩
  · rw [create_waypoints_table_noFail]
  · rw [List.all_eq_true]
    intro r hr
    rcases waypointRows_flags ss r hr with ⟨h1, h2⟩
    rw [h1, h2]
    rfl

/-- C9 (modelled from the spec, `rate_limit` source not provided): for every
sequence of acquire calls and elapsed times, the token count stays within
[0, C]: refill takes min with capacity, and a token is consumed only when at
least one is available. -/
theorem token_bucket_bounds (b : TokenBucket) (es : List Rat)
    (ht0 : 0 ≤ b.tokens) (htc : b.tokens ≤ b.capacity) (hr : 0 ≤ b.rate)
    (hes : ∀ e ∈ es, 0 ≤ e) :
    0 ≤ (acquireSeq b es).tokens ∧ (acquireSeq b es).tokens ≤ b.capacity := by
  induction es generalizing b with
  | nil => exact ⟨ht0, htc⟩
  | cons e es ih =>
      have he : 0 ≤ e := hes e (List.mem_cons_self e es)
      have hstep := acquire_tokens_bounds b e ht0 htc hr he
      have hcap := acquire_capacity b e
      have hrate := acquire_rate b e
      have hrest := ih (acquire b e) hstep.1 (by rw [hcap]; exact hstep.2)
        (by rw [hrate]; exact hr) (fun x hx => hes x (List.mem_cons_of_mem e hx))
      have hseq : acquireSeq b (e :: es) = acquireSeq (acquire b e) es := rfl
      rw [hseq, ← hcap]
      exact hrest

/-- C9 witness: a bucket of capacity 2 starting full with rate 1, acquiring
twice (elapsed 0 and 1 seconds). -/
theorem token_bucket_bounds_witness :
    ((0 : Rat) ≤ (⟨2, 2, 1⟩ : TokenBucket).tokens ∧
      (∀ e ∈ ([0, 1] : List Rat), 0 ≤ e)) ∧
    (0 ≤ (acquireSeq ⟨2, 2, 1⟩ [0, 1]).tokens ∧
      (acquireSeq ⟨2, 2, 1⟩ [0, 1]).tokens ≤ (⟨2, 2, 1⟩ : TokenBucket).capacity) :=
  ⟨⟨by decide, by decide⟩,
    token_bucket_bounds ⟨2, 2, 1⟩ [0, 1] (by decide) (by decide) (by decide) (by decide)⟩

/-- C10: when the requested waypoint symbol has no row in the local waypoints
table, the local lookup errors (an `expect` panic on `fetch_one`) and no
network request to the upstream API is issued. -/
theorem get_waypoint_missing_row_no_network (db : DB) (ws : String)
    (h : hasWaypointRow db ws = false) :
    (get_waypoint db ws).1 = Outcome.panic "System symbol fetching" ∧
    (get_waypoint db ws).2 = [] := by
  have hlook : system_symbol_from_waypoint_symbol db ws =
      Outcome.panic "System symbol fetching" := by
    unfold system_symbol_from_waypoint_symbol
    unfold hasWaypointRow at h
    cases hw : db.waypoints with
    | none => rfl
    | some rows =>
        rw [hw] at h
        dsimp only at h ⊢
        have hfind : rows.find? (fun r => r.symbol == ws) = none := by
          rw [List.find?_eq_none]
          intro r hr
          have hany := List.any_eq_false.mp h r hr
          simpa using hany
        rw [hfind]
  unfold get_waypoint
  rw [hlook]
  exact ⟨rfl, rfl⟩

/-- C10 witness: a populated store that lacks the requested symbol. -/
theorem get_waypoint_missing_row_no_network_witness :
    hasWaypointRow dbOneWp "X9-Q" = false ∧
    ((get_waypoint dbOneWp "X9-Q").1 = Outcome.panic "System symbol fetching" ∧
      (get_waypoint dbOneWp "X9-Q").2 = []) :=
  ⟨by decide, get_waypoint_missing_row_no_network dbOneWp "X9-Q" (by decide)⟩
